import Mathlib

/-!
Verification of the analytical derivations and the orchestrator of
`prepare_tableau_data.py`.

The script runs five SQL queries (main dashboard, team summary, player
comparison, value analysis, position analysis) over two source tables
(`player_merged_stats`, `player_salaries`) and writes each result to a CSV
file.  We embed the two source tables as lists of records, SQL values as
`Option Rat` (with `none` for SQL NULL), and each query as a pure function
from the database contents to a list of output rows, following the query
text field by field.  The orchestrator `main` is embedded as a trace-
producing function over an environment that fixes which external steps
(connection, each query, each CSV write) succeed.
-/

/-- MySQL `ROUND(x, d)` on exact numerics: round half away from zero to
`d` decimal places. -/
def mysqlRound (d : Nat) (x : Rat) : Rat :=
  if 0 ≤ x then ((⌊x * 10 ^ d + 1 / 2⌋ : Int) : Rat) / 10 ^ d
  else -(((⌊-x * 10 ^ d + 1 / 2⌋ : Int) : Rat) / 10 ^ d)

/-- SQL `ROUND` lifted to nullable values: `ROUND(NULL, d)` is NULL. -/
def sqlRound (d : Nat) : Option Rat → Option Rat :=
  Option.map (mysqlRound d)

/-- SQL addition: NULL-propagating. -/
def sqlAdd : Option Rat → Option Rat → Option Rat
  | some x, some y => some (x + y)
  | _, _ => none

/-- SQL subtraction: NULL-propagating. -/
def sqlSub : Option Rat → Option Rat → Option Rat
  | some x, some y => some (x - y)
  | _, _ => none

/-- SQL multiplication: NULL-propagating. -/
def sqlMul : Option Rat → Option Rat → Option Rat
  | some x, some y => some (x * y)
  | _, _ => none

/-- MySQL division `x / y`: NULL when an operand is NULL, and also NULL
(rather than an error) when the divisor is zero. -/
def sqlDiv : Option Rat → Option Rat → Option Rat
  | some x, some y => if y = 0 then none else some (x / y)
  | _, _ => none

/-- Instrumented MySQL division.  The outer layer records whether a
division by zero was actually attempted during evaluation: `none` means a
zero divisor was hit (the case MySQL silently turns into NULL), `some v`
means the division was performed safely (or skipped on a NULL operand)
with SQL value `v`.  Joining the two layers recovers `sqlDiv`. -/
def sqlDivChk : Option Rat → Option Rat → Option (Option Rat)
  | some x, some y => if y = 0 then none else some (some (x / y))
  | _, _ => some none

/-- SQL comparison `a > c` against a constant: UNKNOWN (hence not taken
by a `CASE WHEN` / `WHERE`) when `a` is NULL. -/
def sqlGtC (a : Option Rat) (c : Rat) : Bool :=
  match a with
  | some x => decide (c < x)
  | none => false

/-- SQL comparison `a >= c` against a constant; UNKNOWN on NULL. -/
def sqlGeC (a : Option Rat) (c : Rat) : Bool :=
  match a with
  | some x => decide (c ≤ x)
  | none => false

/-- SQL comparison `a <= c` against a constant; UNKNOWN on NULL. -/
def sqlLeC (a : Option Rat) (c : Rat) : Bool :=
  match a with
  | some x => decide (x ≤ c)
  | none => false

/-- SQL comparison `a < c` against a constant; UNKNOWN on NULL. -/
def sqlLtC (a : Option Rat) (c : Rat) : Bool :=
  match a with
  | some x => decide (x < c)
  | none => false

/-- SQL aggregate `SUM`: NULL values are ignored; the sum over an empty
set of non-NULL values is NULL. -/
def sqlSum (l : List (Option Rat)) : Option Rat :=
  let vs := l.filterMap id
  if vs.isEmpty then none else some vs.sum

/-- SQL aggregate `AVG`: NULL values are ignored; NULL on no values. -/
def sqlAvg (l : List (Option Rat)) : Option Rat :=
  let vs := l.filterMap id
  if vs.isEmpty then none else some (vs.sum / (vs.length : Rat))

/-! ## Derived ratio fields

Each `..._eval` definition is the corresponding `CASE WHEN ... THEN
ROUND(...) ELSE NULL END` expression of the query text, with every
division instrumented through `sqlDivChk`; the plain definition joins away
the instrumentation layer and is the SQL value of the output column. -/

/-- `CASE WHEN pms.pg_points > 0 AND ps.salary > 0 THEN
ROUND(pms.pg_points / (ps.salary / 1000000), 2) ELSE NULL END`,
instrumented for division-by-zero. -/
def points_per_million_eval (pg_points salary : Option Rat) :
    Option (Option Rat) :=
  if sqlGtC pg_points 0 && sqlGtC salary 0 then do
    let d ← sqlDivChk salary (some 1000000)
    let q ← sqlDivChk pg_points d
    pure (sqlRound 2 q)
  else pure none

/-- The `points_per_million` output column. -/
def points_per_million (pg_points salary : Option Rat) : Option Rat :=
  (points_per_million_eval pg_points salary).join

/-- `CASE WHEN pms.adv_win_shares > 0 AND ps.salary > 0 THEN
ROUND(ps.salary / pms.adv_win_shares, 0) ELSE NULL END`,
instrumented for division-by-zero. -/
def salary_per_win_share_eval (salary ws : Option Rat) :
    Option (Option Rat) :=
  if sqlGtC ws 0 && sqlGtC salary 0 then
    (sqlDivChk salary ws).map (sqlRound 0)
  else pure none

/-- The `salary_per_win_share` output column (named `salary_per_WS` in
the value-analysis query, with the same defining expression). -/
def salary_per_win_share (salary ws : Option Rat) : Option Rat :=
  (salary_per_win_share_eval salary ws).join

/-- `CASE WHEN pms.adv_value_over_replacement > 0 AND ps.salary > 0 THEN
ROUND(ps.salary / pms.adv_value_over_replacement, 0) ELSE NULL END`,
instrumented for division-by-zero. -/
def salary_per_vorp_eval (salary vorp : Option Rat) :
    Option (Option Rat) :=
  if sqlGtC vorp 0 && sqlGtC salary 0 then
    (sqlDivChk salary vorp).map (sqlRound 0)
  else pure none

/-- The `salary_per_vorp` output column (named `salary_per_VORP` in the
value-analysis query, with the same defining expression). -/
def salary_per_vorp (salary vorp : Option Rat) : Option Rat :=
  (salary_per_vorp_eval salary vorp).join

/-- `CASE WHEN pms.adv_value_over_replacement > 0 AND ps.salary > 0 THEN
ROUND((pms.adv_value_over_replacement * 1000000) / ps.salary * 100, 2)
ELSE NULL END`, instrumented for division-by-zero. -/
def value_score_eval (vorp salary : Option Rat) : Option (Option Rat) :=
  if sqlGtC vorp 0 && sqlGtC salary 0 then
    (sqlDivChk (sqlMul vorp (some 1000000)) salary).map
      (fun q => sqlRound 2 (sqlMul q (some 100)))
  else pure none

/-- The `value_score` output column. -/
def value_score (vorp salary : Option Rat) : Option Rat :=
  (value_score_eval vorp salary).join

/-- `CASE WHEN SUM(pms.adv_win_shares) > 0 THEN
ROUND(SUM(ps.salary) / SUM(pms.adv_win_shares), 0) ELSE NULL END`,
instrumented for division-by-zero; takes the two group sums. -/
def payroll_per_WS_eval (sumSalary sumWS : Option Rat) :
    Option (Option Rat) :=
  if sqlGtC sumWS 0 then
    (sqlDivChk sumSalary sumWS).map (sqlRound 0)
  else pure none

/-- The `payroll_per_WS` output column of the team-summary query. -/
def payroll_per_WS (sumSalary sumWS : Option Rat) : Option Rat :=
  (payroll_per_WS_eval sumSalary sumWS).join

/-- `CASE WHEN SUM(pms.adv_value_over_replacement) > 0 THEN
ROUND(SUM(ps.salary) / SUM(pms.adv_value_over_replacement), 0) ELSE NULL
END`, instrumented for division-by-zero; takes the two group sums. -/
def payroll_per_VORP_eval (sumSalary sumVORP : Option Rat) :
    Option (Option Rat) :=
  if sqlGtC sumVORP 0 then
    (sqlDivChk sumSalary sumVORP).map (sqlRound 0)
  else pure none

/-- The `payroll_per_VORP` output column of the team-summary query. -/
def payroll_per_VORP (sumSalary sumVORP : Option Rat) : Option Rat :=
  (payroll_per_VORP_eval sumSalary sumVORP).join

example : points_per_million (some 20) (some 10000000) = some 2 := by
  norm_num [points_per_million, points_per_million_eval, sqlDivChk, sqlGtC,
    sqlRound, mysqlRound, Option.join]

example : points_per_million (some 0) (some 10000000) = none := by
  norm_num [points_per_million, points_per_million_eval, sqlGtC, Option.join]

example : salary_per_win_share (some 10000000) (some 4) = some 2500000 := by
  norm_num [salary_per_win_share, salary_per_win_share_eval, sqlDivChk,
    sqlGtC, sqlRound, mysqlRound, Option.join]

/-! ## Source tables

`player_merged_stats` and `player_salaries`, restricted to the columns
the five queries read.  Columns that can be NULL in the store are
`Option`-valued; the join keys (`player_name`, `season`) are the String
identity of a row. -/

/-- A row of the `player_merged_stats` source table (the columns the
queries read for joining, filtering, ratios, tiers and trends). -/
structure StatsRow where
  player_name : String
  season : String
  team : String
  position : Option String
  games_played : Option Rat
  pg_points : Option Rat
  adv_win_shares : Option Rat
  adv_value_over_replacement : Option Rat
deriving DecidableEq, Repr

/-- A row of the `player_salaries` source table. -/
structure SalaryRow where
  player_name : String
  season : String
  salary : Option Rat
  salary_rank : Option Rat
deriving DecidableEq, Repr

/-- The contents of the two source tables. -/
structure Database where
  stats : List StatsRow
  salaries : List SalaryRow
deriving Repr

/-- The salary rows matching a stats row under the join condition
`ps.player_name = pms.player_name AND ps.season = pms.season`. -/
def salaryMatches (sals : List SalaryRow) (r : StatsRow) : List SalaryRow :=
  sals.filter (fun s =>
    decide (s.player_name = r.player_name ∧ s.season = r.season))

/-- `LEFT JOIN player_salaries ps ON pms.player_name = ps.player_name AND
pms.season = ps.season`: a stats row with no match is kept with a NULL
salary side; otherwise one joined row per match. -/
def leftJoinSalary (sals : List SalaryRow) (r : StatsRow) :
    List (Option SalaryRow) :=
  if (salaryMatches sals r).isEmpty then [none]
  else (salaryMatches sals r).map some

/-! ## Bucketed categorical fields

Each is the `CASE WHEN ... END` chain of the query text, evaluated top to
bottom with the first true condition winning; a NULL operand makes a
comparison UNKNOWN, which falls through like false. -/

/-- The `salary_tier` column of the main-dashboard query. -/
def salary_tier (salary_rank : Option Rat) : String :=
  if sqlLeC salary_rank 10 then "Top 10 (Supermax)"
  else if sqlLeC salary_rank 30 then "Top 30 (Max)"
  else if sqlLeC salary_rank 50 then "Top 50"
  else if sqlLeC salary_rank 100 then "Top 100"
  else if sqlLeC salary_rank 200 then "Top 200"
  else "Other"

/-- The `scoring_tier` column of the main-dashboard query. -/
def scoring_tier (pg_points : Option Rat) : String :=
  if sqlGeC pg_points 25 then "Elite Scorer (25+ PPG)"
  else if sqlGeC pg_points 20 then "All-Star (20-25 PPG)"
  else if sqlGeC pg_points 15 then "Starter (15-20 PPG)"
  else if sqlGeC pg_points 10 then "Role Player (10-15 PPG)"
  else "Bench Player (<10 PPG)"

/-- The `impact_tier` column of the main-dashboard query. -/
def impact_tier (vorp : Option Rat) : String :=
  if sqlGeC vorp 6 then "Superstar (6+ VORP)"
  else if sqlGeC vorp 4 then "Star (4-6 VORP)"
  else if sqlGeC vorp 2 then "Above Average (2-4 VORP)"
  else if sqlGeC vorp 0 then "Average (0-2 VORP)"
  else "Below Average (<0 VORP)"

/-- The `value_category` column of the value-analysis query. -/
def value_category (salary_rank vorp : Option Rat) : String :=
  if sqlLeC salary_rank 50 && sqlGeC vorp 4 then "Star - Excellent Value"
  else if sqlLeC salary_rank 50 && sqlGeC vorp 2 then "Star - Fair Value"
  else if sqlLeC salary_rank 50 && sqlLtC vorp 2 then "Star - Overpaid"
  else if sqlGtC salary_rank 50 && sqlGeC vorp 4 then "Hidden Gem"
  else if sqlGtC salary_rank 50 && sqlGeC vorp 2 then "Good Value"
  else if sqlGtC salary_rank 50 && sqlGeC vorp 0 then "Fair Value"
  else "Below Average"

/-- The `performance_trend` column of the player-comparison query; the
previous-season points are coalesced to 0 by `IFNULL`. -/
def performance_trend (curr_ppg prev_ppg : Option Rat) : String :=
  if sqlGtC curr_ppg (prev_ppg.getD 0 + 2) then "Significantly Improved"
  else if sqlGtC curr_ppg (prev_ppg.getD 0) then "Improved"
  else if sqlLtC curr_ppg (prev_ppg.getD 0 - 2) then "Significantly Declined"
  else if sqlLtC curr_ppg (prev_ppg.getD 0) then "Declined"
  else "Stable"

/-- The `impact_trend` column of the player-comparison query; the
previous-season value-over-replacement is coalesced to 0 by `IFNULL`. -/
def impact_trend (curr_vorp prev_vorp : Option Rat) : String :=
  if sqlGtC curr_vorp (prev_vorp.getD 0 + 1) then "Breakout"
  else if sqlGtC curr_vorp (prev_vorp.getD 0) then "Improving"
  else if sqlLtC curr_vorp (prev_vorp.getD 0 - 1) then "Regression"
  else if sqlLtC curr_vorp (prev_vorp.getD 0) then "Declining"
  else "Consistent"

/-! ## Year-over-year change fields of the player-comparison query -/

/-- `(curr_sal.salary - IFNULL(prev_sal.salary, 0)) as salary_change`. -/
def salary_change (curr_salary prev_salary : Option Rat) : Option Rat :=
  sqlSub curr_salary (some (prev_salary.getD 0))

/-- `ROUND(((curr_sal.salary - IFNULL(prev_sal.salary, 1)) /
IFNULL(prev_sal.salary, 1) * 100), 1) as salary_change_pct`. -/
def salary_change_pct (curr_salary prev_salary : Option Rat) : Option Rat :=
  sqlRound 1 (sqlMul
    (sqlDiv (sqlSub curr_salary (some (prev_salary.getD 1)))
      (some (prev_salary.getD 1)))
    (some 100))

/-- The `salary_change_pct` expression with its division instrumented
through `sqlDivChk`: the outer layer is `none` exactly when the divisor
`IFNULL(prev_sal.salary, 1)` is zero while the dividend is non-NULL,
i.e. when evaluating the column attempts a division by zero.  `IFNULL`
coalesces only NULL, so a previous salary record storing the value 0
passes 0 through as the divisor. -/
def salary_change_pct_eval (curr_salary prev_salary : Option Rat) :
    Option (Option Rat) :=
  (sqlDivChk (sqlSub curr_salary (some (prev_salary.getD 1)))
      (some (prev_salary.getD 1))).map
    (fun q => sqlRound 1 (sqlMul q (some 100)))

/-- Joining away the instrumentation layer of `salary_change_pct_eval`
recovers the `salary_change_pct` column (MySQL turns the zero-divisor
case into NULL). -/
theorem salary_change_pct_eq_eval_join (c p : Option Rat) :
    salary_change_pct c p = (salary_change_pct_eval c p).join := by
  rcases p with _ | q <;> rcases c with _ | x <;>
    simp only [salary_change_pct, salary_change_pct_eval, sqlSub,
      Option.getD, sqlDivChk, sqlDiv, sqlMul, sqlRound, Option.map,
      Option.join]
  · simp
  · by_cases hq : (1 : Rat) = 0 <;> simp [hq]
  · simp
  · by_cases hq : q = 0 <;> simp [hq]

/-! ## Derivation 1: `create_main_dashboard_data` -/

/-- An output row of the main-dashboard query (the columns the claims
concern; the remaining columns are verbatim copies of source columns). -/
structure MainDashboardRow where
  player_name : String
  season : String
  team : String
  salary : Option Rat
  salary_rank : Option Rat
  ppg : Option Rat
  WS : Option Rat
  VORP : Option Rat
  points_per_million : Option Rat
  salary_per_win_share : Option Rat
  salary_per_vorp : Option Rat
  salary_tier : String
  scoring_tier : String
  impact_tier : String
deriving DecidableEq, Repr

/-- The SELECT list of the main-dashboard query applied to one joined
row (stats row plus optional matching salary row). -/
def mkMainRow (r : StatsRow) (os : Option SalaryRow) : MainDashboardRow :=
  { player_name := r.player_name
    season := r.season
    team := r.team
    salary := os.bind (fun s => s.salary)
    salary_rank := os.bind (fun s => s.salary_rank)
    ppg := r.pg_points
    WS := r.adv_win_shares
    VORP := r.adv_value_over_replacement
    points_per_million :=
      points_per_million r.pg_points (os.bind (fun s => s.salary))
    salary_per_win_share :=
      salary_per_win_share (os.bind (fun s => s.salary)) r.adv_win_shares
    salary_per_vorp :=
      salary_per_vorp (os.bind (fun s => s.salary))
        r.adv_value_over_replacement
    salary_tier := salary_tier (os.bind (fun s => s.salary_rank))
    scoring_tier := scoring_tier r.pg_points
    impact_tier := impact_tier r.adv_value_over_replacement }

/-- The stats rows passing a query's WHERE clause on the stats side,
left-joined to the salary table (FROM ... LEFT JOIN ... with the given
per-stats-row inclusion predicate). -/
def joinedRows (db : Database) (keep : StatsRow → Bool) :
    List (StatsRow × Option SalaryRow) :=
  (db.stats.filter keep).flatMap
    (fun r => (leftJoinSalary db.salaries r).map (fun os => (r, os)))

/-- The main-dashboard query: left join on (player, season), WHERE
`pms.games_played >= 10`.  The final ORDER BY does not affect row
contents and is not modelled. -/
def create_main_dashboard_data (db : Database) : List MainDashboardRow :=
  (joinedRows db (fun r => sqlGeC r.games_played 10)).map
    (fun p => mkMainRow p.1 p.2)

/-! ## Derivation 2: `create_team_summary_data` -/

/-- An output row of the team-summary query (the columns the claims
concern). -/
structure TeamSummaryRow where
  season : String
  team : String
  roster_count : Nat
  total_payroll : Option Rat
  total_WS : Option Rat
  total_VORP : Option Rat
  payroll_per_WS : Option Rat
  payroll_per_VORP : Option Rat
deriving DecidableEq, Repr

/-- The aggregate SELECT list of the team-summary query applied to one
(season, team) group of joined rows. -/
def mkTeamRow (k : String × String)
    (rows : List (StatsRow × Option SalaryRow)) : TeamSummaryRow :=
  { season := k.1
    team := k.2
    roster_count := ((rows.map (fun p => p.1.player_name)).dedup).length
    total_payroll := sqlSum (rows.map (fun p => p.2.bind (fun s => s.salary)))
    total_WS := sqlRound 2 (sqlSum (rows.map (fun p => p.1.adv_win_shares)))
    total_VORP := sqlRound 2
      (sqlSum (rows.map (fun p => p.1.adv_value_over_replacement)))
    payroll_per_WS := payroll_per_WS
      (sqlSum (rows.map (fun p => p.2.bind (fun s => s.salary))))
      (sqlSum (rows.map (fun p => p.1.adv_win_shares)))
    payroll_per_VORP := payroll_per_VORP
      (sqlSum (rows.map (fun p => p.2.bind (fun s => s.salary))))
      (sqlSum (rows.map (fun p => p.1.adv_value_over_replacement))) }

/-- The distinct (season, team) grouping keys of the team-summary query
over the joined, games-filtered rows. -/
def teamGroups (db : Database) : List (String × String) :=
  ((joinedRows db (fun r => sqlGeC r.games_played 10)).map
    (fun p => (p.1.season, p.1.team))).dedup

/-- The team-summary query: WHERE `pms.games_played >= 10`, GROUP BY
`pms.season, pms.team`. -/
def create_team_summary_data (db : Database) : List TeamSummaryRow :=
  (teamGroups db).map
    (fun k => mkTeamRow k
      ((joinedRows db (fun r => sqlGeC r.games_played 10)).filter
        (fun p => decide ((p.1.season, p.1.team) = k))))

/-! ## Derivation 3: `create_player_comparison_data` -/

/-- The hard-coded adjacent-season pair condition of the prev-stats
LEFT JOIN: `(curr.season = '2023-24' AND prev.season = '2022-23') OR
(curr.season = '2024-25' AND prev.season = '2023-24')`. -/
def seasonPair (currSeason prevSeason : String) : Bool :=
  (decide (currSeason = "2023-24") && decide (prevSeason = "2022-23")) ||
  (decide (currSeason = "2024-25") && decide (prevSeason = "2023-24"))

/-- The previous-season stats rows matching a current stats row under
the self-join condition (same player, hard-coded season pair). -/
def prevMatches (stats : List StatsRow) (c : StatsRow) : List StatsRow :=
  stats.filter (fun p =>
    decide (p.player_name = c.player_name) && seasonPair c.season p.season)

/-- `LEFT JOIN player_merged_stats prev ON ...`: a current row with no
matching previous-season row is kept with a NULL previous side. -/
def leftJoinPrev (stats : List StatsRow) (c : StatsRow) :
    List (Option StatsRow) :=
  if (prevMatches stats c).isEmpty then [none]
  else (prevMatches stats c).map some

/-- `LEFT JOIN player_salaries prev_sal ON prev.player_name =
prev_sal.player_name AND prev.season = prev_sal.season`: when the
previous side is NULL the join condition compares against NULL and never
matches, so the salary side is NULL. -/
def leftJoinPrevSal (sals : List SalaryRow) :
    Option StatsRow → List (Option SalaryRow)
  | none => [none]
  | some p => leftJoinSalary sals p

/-- An output row of the player-comparison query (the columns the claims
concern). -/
structure ComparisonRow where
  player_name : String
  current_season : String
  current_team : String
  current_salary : Option Rat
  current_salary_rank : Option Rat
  current_ppg : Option Rat
  current_VORP : Option Rat
  previous_season : Option String
  previous_team : Option String
  previous_salary : Option Rat
  previous_salary_rank : Option Rat
  previous_ppg : Option Rat
  previous_VORP : Option Rat
  salary_change : Option Rat
  salary_change_pct : Option Rat
  performance_trend : String
  impact_trend : String
deriving DecidableEq, Repr

/-- The SELECT list of the player-comparison query applied to one joined
row (current stats, optional current salary, optional previous stats,
optional previous salary). -/
def mkComparisonRow (c : StatsRow) (csal : Option SalaryRow)
    (prev : Option StatsRow) (psal : Option SalaryRow) : ComparisonRow :=
  { player_name := c.player_name
    current_season := c.season
    current_team := c.team
    current_salary := csal.bind (fun s => s.salary)
    current_salary_rank := csal.bind (fun s => s.salary_rank)
    current_ppg := c.pg_points
    current_VORP := c.adv_value_over_replacement
    previous_season := prev.map (fun p => p.season)
    previous_team := prev.map (fun p => p.team)
    previous_salary := psal.bind (fun s => s.salary)
    previous_salary_rank := psal.bind (fun s => s.salary_rank)
    previous_ppg := prev.bind (fun p => p.pg_points)
    previous_VORP := prev.bind (fun p => p.adv_value_over_replacement)
    salary_change := salary_change (csal.bind (fun s => s.salary))
      (psal.bind (fun s => s.salary))
    salary_change_pct := salary_change_pct (csal.bind (fun s => s.salary))
      (psal.bind (fun s => s.salary))
    performance_trend := performance_trend c.pg_points
      (prev.bind (fun p => p.pg_points))
    impact_trend := impact_trend c.adv_value_over_replacement
      (prev.bind (fun p => p.adv_value_over_replacement)) }

/-- The player-comparison query: chained LEFT JOINs (current salary,
previous stats by the hard-coded season pairs, previous salary), WHERE
`curr.games_played >= 20`. -/
def create_player_comparison_data (db : Database) : List ComparisonRow :=
  (db.stats.filter (fun c => sqlGeC c.games_played 20)).flatMap (fun c =>
    (leftJoinSalary db.salaries c).flatMap (fun csal =>
      (leftJoinPrev db.stats c).flatMap (fun prev =>
        (leftJoinPrevSal db.salaries prev).map (fun psal =>
          mkComparisonRow c csal prev psal))))

/-! ## Derivation 4: `create_value_analysis_data` -/

/-- An output row of the value-analysis query (the columns the claims
concern). -/
structure ValueAnalysisRow where
  player_name : String
  season : String
  team : String
  salary : Option Rat
  salary_rank : Option Rat
  WS : Option Rat
  VORP : Option Rat
  points_per_million : Option Rat
  salary_per_WS : Option Rat
  salary_per_VORP : Option Rat
  value_score : Option Rat
  value_category : String
deriving DecidableEq, Repr

/-- The SELECT list of the value-analysis query applied to one joined
row. -/
def mkValueRow (r : StatsRow) (os : Option SalaryRow) : ValueAnalysisRow :=
  { player_name := r.player_name
    season := r.season
    team := r.team
    salary := os.bind (fun s => s.salary)
    salary_rank := os.bind (fun s => s.salary_rank)
    WS := r.adv_win_shares
    VORP := r.adv_value_over_replacement
    points_per_million :=
      points_per_million r.pg_points (os.bind (fun s => s.salary))
    salary_per_WS :=
      salary_per_win_share (os.bind (fun s => s.salary)) r.adv_win_shares
    salary_per_VORP :=
      salary_per_vorp (os.bind (fun s => s.salary))
        r.adv_value_over_replacement
    value_score :=
      value_score r.adv_value_over_replacement (os.bind (fun s => s.salary))
    value_category := value_category (os.bind (fun s => s.salary_rank))
      r.adv_value_over_replacement }

/-- The value-analysis query: left join on (player, season), WHERE
`pms.games_played >= 20 AND ps.salary IS NOT NULL` (the second conjunct
is evaluated on the joined row and drops rows whose salary side is NULL
or whose matched salary value is NULL). -/
def create_value_analysis_data (db : Database) : List ValueAnalysisRow :=
  ((joinedRows db (fun r => sqlGeC r.games_played 20)).filter
    (fun p => (p.2.bind (fun s => s.salary)).isSome)).map
    (fun p => mkValueRow p.1 p.2)

/-! ## Derivation 5: `create_position_analysis_data` -/

/-- An output row of the position-analysis query (the columns the claims
concern). -/
structure PositionAnalysisRow where
  position : Option String
  season : String
  player_count : Nat
  avg_salary : Option Rat
  avg_VORP : Option Rat
deriving DecidableEq, Repr

/-- The aggregate SELECT list of the position-analysis query applied to
one (position, season) group of joined rows. -/
def mkPositionRow (k : Option String × String)
    (rows : List (StatsRow × Option SalaryRow)) : PositionAnalysisRow :=
  { position := k.1
    season := k.2
    player_count := ((rows.map (fun p => p.1.player_name)).dedup).length
    avg_salary := sqlRound 0
      (sqlAvg (rows.map (fun p => p.2.bind (fun s => s.salary))))
    avg_VORP := sqlRound 2
      (sqlAvg (rows.map (fun p => p.1.adv_value_over_replacement))) }

/-- The distinct (position, season) grouping keys of the
position-analysis query over the joined, filtered rows. -/
def positionGroups (db : Database) : List (Option String × String) :=
  ((joinedRows db
      (fun r => sqlGeC r.games_played 40 && r.position.isSome)).map
    (fun p => (p.1.position, p.1.season))).dedup

/-- The position-analysis query: WHERE `pms.games_played >= 40 AND
pms.position IS NOT NULL`, GROUP BY `pms.position, pms.season`. -/
def create_position_analysis_data (db : Database) :
    List PositionAnalysisRow :=
  (positionGroups db).map
    (fun k => mkPositionRow k
      ((joinedRows db
          (fun r => sqlGeC r.games_played 40 && r.position.isSome)).filter
        (fun p => decide ((p.1.position, p.1.season) = k))))

/-! ## Orchestrator: `main`

`main` connects, then runs the five derivation-plus-CSV-write steps in a
fixed order inside a single `try` block; any exception jumps to the
`except` clause (one log line) and then to the `finally` clause, which
closes the connection when one was opened.  The environment fixes which
external steps succeed: whether the connection opens, and for each of
the five steps whether its query and its CSV write succeed. -/

/-- Observable events of one run of `main`. -/
inductive Ev where
  /-- `logging.error("Failed to connect to database")` after
  `connect_to_database` returned `None`. -/
  | logConnectFail : Ev
  /-- `connect_to_database` returned an open connection. -/
  | connected : Ev
  /-- Output file `i` of the five was written by `to_csv`. -/
  | wrote (i : Fin 5) : Ev
  /-- `logging.error(f"Error creating datasets: ...")` in the `except`
  clause. -/
  | logDatasetError : Ev
  /-- `connection.close()` in the `finally` clause. -/
  | closed : Ev
deriving DecidableEq, Repr

/-- Which external steps succeed in one run: the connection attempt, and
for each derivation its query (`pd.read_sql`) and its CSV write
(`to_csv`). -/
structure OrchEnv where
  connOk : Bool
  queryOk : Fin 5 → Bool
  writeOk : Fin 5 → Bool

/-- The body of the `try` block over the remaining derivation indices:
each step runs its query then writes its file; the first failing step
raises, which transfers control to the `except` clause (one error log)
and abandons the remaining steps. -/
def runSteps (q w : Fin 5 → Bool) : List (Fin 5) → List Ev
  | [] => []
  | i :: rest =>
    if q i && w i then Ev.wrote i :: runSteps q w rest
    else [Ev.logDatasetError]

/-- The five derivation steps in program order: main dashboard, team
summary, player comparison, value analysis, position analysis. -/
def allSteps : List (Fin 5) := [0, 1, 2, 3, 4]

/-- One run of `main`: on connection failure, log and return before the
`try` block (no file, no close); otherwise run the five steps under
`try/except/finally`, closing the connection on every path out. -/
def mainRun (env : OrchEnv) : List Ev :=
  if env.connOk then
    (Ev.connected :: runSteps env.queryOk env.writeOk allSteps) ++
      [Ev.closed]
  else [Ev.logConnectFail]

/-! ## Orchestrator lemmas -/

/-- Characterization of the `try` block: the files written are exactly
the steps up to (excluding) the first failing one; one error is logged
unless every step succeeds. -/
theorem runSteps_eq (q w : Fin 5 → Bool) (l : List (Fin 5)) :
    runSteps q w l =
      (l.takeWhile (fun i => q i && w i)).map Ev.wrote ++
        (if l.all (fun i => q i && w i) then [] else [Ev.logDatasetError]) := by
  induction l with
  | nil => simp [runSteps]
  | cons i rest ih =>
    by_cases h : (q i && w i) = true
    · simp [runSteps, h, ih, List.takeWhile_cons, List.all_cons]
    · simp [runSteps, h, List.takeWhile_cons, List.all_cons,
        Bool.eq_false_iff.mpr h]

/-- The `try` block never emits a close event. -/
theorem count_closed_runSteps (q w : Fin 5 → Bool) (l : List (Fin 5)) :
    (runSteps q w l).count Ev.closed = 0 := by
  induction l with
  | nil => simp [runSteps]
  | cons i rest ih =>
    by_cases h : (q i && w i) = true
    · simp [runSteps, h, List.count_cons, ih]
    · simp [runSteps, h]

/-- Environment for the partial-failure scenario: the connection opens,
derivation 1 (the team-summary step, second in program order) fails, and
every other query and every write succeeds. -/
def env0 : OrchEnv :=
  { connOk := true
    queryOk := fun i => decide (i ≠ 1)
    writeOk := fun _ => true }

/-- Environment in which every external step succeeds. -/
def envAllOk : OrchEnv :=
  { connOk := true, queryOk := fun _ => true, writeOk := fun _ => true }

example : mainRun env0 =
    [Ev.connected, Ev.wrote 0, Ev.logDatasetError, Ev.closed] := by decide

example : mainRun envAllOk =
    [Ev.connected, Ev.wrote 0, Ev.wrote 1, Ev.wrote 2, Ev.wrote 3,
      Ev.wrote 4, Ev.closed] := by decide

/-! ## Claims about the orchestrator -/

/-- C1 (counterexample): in `env0` the second derivation fails while the
fifth derivation's query and write would both succeed, yet the fifth
output file is never produced — a single derivation failure does prevent
the remaining derivations from running, contrary to the claim. -/
theorem C1_counterexample :
    env0.queryOk 4 = true ∧ env0.writeOk 4 = true ∧
      (mainRun env0).count (Ev.wrote 4) = 0 ∧
      Ev.logDatasetError ∈ mainRun env0 ∧ Ev.closed ∈ mainRun env0 := by
  decide

/-- C1 (amended): a derivation (or CSV-write) failure is caught and
logged by the single top-level handler and the run still closes the
connection, but it aborts all remaining derivations: the trace of a
connected run is exactly the files of the steps preceding the first
failing step, then an error log unless all five steps succeeded, then
the close. -/
theorem C1_first_failure_aborts_rest (env : OrchEnv)
    (h : env.connOk = true) :
    mainRun env =
      (Ev.connected ::
        ((allSteps.takeWhile (fun i => env.queryOk i && env.writeOk i)).map
            Ev.wrote ++
          (if allSteps.all (fun i => env.queryOk i && env.writeOk i) then []
            else [Ev.logDatasetError]))) ++ [Ev.closed] := by
  simp [mainRun, h, runSteps_eq]

/-- C1 (witness): the amended characterization evaluated in the
partial-failure environment `env0`. -/
theorem C1_first_failure_aborts_rest_witness :
    mainRun env0 =
      (Ev.connected ::
        ((allSteps.takeWhile (fun i => env0.queryOk i && env0.writeOk i)).map
            Ev.wrote ++
          (if allSteps.all (fun i => env0.queryOk i && env0.writeOk i) then []
            else [Ev.logDatasetError]))) ++ [Ev.closed] :=
  C1_first_failure_aborts_rest env0 rfl

/-- C4: when opening the connection fails, `main` logs the failure and
terminates at once — the run's whole trace is the error log, so no
derivation runs, no output file is produced, and the Connected state is
never reached. -/
theorem C4_connect_failure_is_fatal (q w : Fin 5 → Bool) (i : Fin 5) :
    mainRun { connOk := false, queryOk := q, writeOk := w } =
        [Ev.logConnectFail] ∧
      (mainRun { connOk := false, queryOk := q, writeOk := w }).count
          (Ev.wrote i) = 0 ∧
      (mainRun { connOk := false, queryOk := q, writeOk := w }).count
          Ev.connected = 0 := by
  refine ⟨rfl, ?_, ?_⟩ <;> simp [mainRun, List.count_cons]

/-- C5: every run that reaches the Connected state closes the database
connection exactly once, whatever combination of derivation and write
failures occurs afterwards: the `finally` clause runs on the success
path and on the caught-exception path alike. -/
theorem C5_connection_closed_once (env : OrchEnv)
    (h : env.connOk = true) :
    (mainRun env).count Ev.closed = 1 := by
  simp [mainRun, h, List.count_append, List.count_cons,
    count_closed_runSteps]

/-- C5 (witness): the all-success environment reaches Connected and its
trace closes the connection exactly once. -/
theorem C5_connection_closed_once_witness :
    (mainRun envAllOk).count Ev.closed = 1 :=
  C5_connection_closed_once envAllOk rfl

/-! ## Nullability and division-safety of the ratio fields -/

theorem points_per_million_eval_isSome (p s : Option Rat) :
    (points_per_million_eval p s).isSome = true := by
  unfold points_per_million_eval
  split
  · next hguard =>
    rcases s with _ | y
    · simp [sqlGtC] at hguard
    rcases p with _ | x
    · simp [sqlGtC] at hguard
    simp only [sqlGtC, Bool.and_eq_true, decide_eq_true_eq] at hguard
    obtain ⟨hx, hy⟩ := hguard
    have h1 : (1000000 : Rat) ≠ 0 := by norm_num
    have h2 : y / 1000000 ≠ 0 := by positivity
    simp [sqlDivChk, h1, h2]
  · simp

theorem salary_per_win_share_eval_isSome (sal ws : Option Rat) :
    (salary_per_win_share_eval sal ws).isSome = true := by
  unfold salary_per_win_share_eval
  split
  · next hguard =>
    rcases ws with _ | y
    · simp [sqlGtC] at hguard
    simp only [sqlGtC, Bool.and_eq_true, decide_eq_true_eq] at hguard
    have h2 : y ≠ 0 := ne_of_gt hguard.1
    rcases sal with _ | x <;> simp [sqlDivChk, h2]
  · simp

theorem salary_per_vorp_eval_isSome (sal vorp : Option Rat) :
    (salary_per_vorp_eval sal vorp).isSome = true := by
  unfold salary_per_vorp_eval
  split
  · next hguard =>
    rcases vorp with _ | y
    · simp [sqlGtC] at hguard
    simp only [sqlGtC, Bool.and_eq_true, decide_eq_true_eq] at hguard
    have h2 : y ≠ 0 := ne_of_gt hguard.1
    rcases sal with _ | x <;> simp [sqlDivChk, h2]
  · simp

theorem value_score_eval_isSome (vorp sal : Option Rat) :
    (value_score_eval vorp sal).isSome = true := by
  unfold value_score_eval
  split
  · next hguard =>
    rcases sal with _ | y
    · simp [sqlGtC] at hguard
    simp only [sqlGtC, Bool.and_eq_true, decide_eq_true_eq] at hguard
    have h2 : y ≠ 0 := ne_of_gt hguard.2
    rcases vorp with _ | x <;> simp [sqlDivChk, sqlMul, h2]
  · simp

theorem payroll_per_WS_eval_isSome (sumSalary sumWS : Option Rat) :
    (payroll_per_WS_eval sumSalary sumWS).isSome = true := by
  unfold payroll_per_WS_eval
  split
  · next hguard =>
    rcases sumWS with _ | y
    · simp [sqlGtC] at hguard
    simp only [sqlGtC, decide_eq_true_eq] at hguard
    have h2 : y ≠ 0 := ne_of_gt hguard
    rcases sumSalary with _ | x <;> simp [sqlDivChk, h2]
  · simp

theorem payroll_per_VORP_eval_isSome (sumSalary sumVORP : Option Rat) :
    (payroll_per_VORP_eval sumSalary sumVORP).isSome = true := by
  unfold payroll_per_VORP_eval
  split
  · next hguard =>
    rcases sumVORP with _ | y
    · simp [sqlGtC] at hguard
    simp only [sqlGtC, decide_eq_true_eq] at hguard
    have h2 : y ≠ 0 := ne_of_gt hguard
    rcases sumSalary with _ | x <;> simp [sqlDivChk, h2]
  · simp

theorem points_per_million_isSome (p s : Option Rat) :
    (points_per_million p s).isSome = (sqlGtC p 0 && sqlGtC s 0) := by
  unfold points_per_million points_per_million_eval
  split
  · next hguard =>
    rw [hguard]
    rcases s with _ | y
    · simp [sqlGtC] at hguard
    rcases p with _ | x
    · simp [sqlGtC] at hguard
    simp only [sqlGtC, Bool.and_eq_true, decide_eq_true_eq] at hguard
    obtain ⟨hx, hy⟩ := hguard
    have h1 : (1000000 : Rat) ≠ 0 := by norm_num
    have h2 : y / 1000000 ≠ 0 := by positivity
    simp [sqlDivChk, h1, h2, sqlRound]
  · next hguard =>
    simp only [Bool.not_eq_true] at hguard
    simp [hguard, Option.join]

theorem salary_per_win_share_isSome (sal ws : Option Rat) :
    (salary_per_win_share sal ws).isSome = (sqlGtC ws 0 && sqlGtC sal 0) := by
  unfold salary_per_win_share salary_per_win_share_eval
  split
  · next hguard =>
    rw [hguard]
    rcases ws with _ | y
    · simp [sqlGtC] at hguard
    rcases sal with _ | x
    · simp [sqlGtC] at hguard
    simp only [sqlGtC, Bool.and_eq_true, decide_eq_true_eq] at hguard
    have h2 : y ≠ 0 := ne_of_gt hguard.1
    simp [sqlDivChk, h2, sqlRound]
  · next hguard =>
    simp only [Bool.not_eq_true] at hguard
    simp [hguard, Option.join]

theorem salary_per_vorp_isSome (sal vorp : Option Rat) :
    (salary_per_vorp sal vorp).isSome = (sqlGtC vorp 0 && sqlGtC sal 0) := by
  unfold salary_per_vorp salary_per_vorp_eval
  split
  · next hguard =>
    rw [hguard]
    rcases vorp with _ | y
    · simp [sqlGtC] at hguard
    rcases sal with _ | x
    · simp [sqlGtC] at hguard
    simp only [sqlGtC, Bool.and_eq_true, decide_eq_true_eq] at hguard
    have h2 : y ≠ 0 := ne_of_gt hguard.1
    simp [sqlDivChk, h2, sqlRound]
  · next hguard =>
    simp only [Bool.not_eq_true] at hguard
    simp [hguard, Option.join]

theorem value_score_isSome (vorp sal : Option Rat) :
    (value_score vorp sal).isSome = (sqlGtC vorp 0 && sqlGtC sal 0) := by
  unfold value_score value_score_eval
  split
  · next hguard =>
    rw [hguard]
    rcases sal with _ | y
    · simp [sqlGtC] at hguard
    rcases vorp with _ | x
    · simp [sqlGtC] at hguard
    simp only [sqlGtC, Bool.and_eq_true, decide_eq_true_eq] at hguard
    have h2 : y ≠ 0 := ne_of_gt hguard.2
    simp [sqlDivChk, sqlMul, h2, sqlRound]
  · next hguard =>
    simp only [Bool.not_eq_true] at hguard
    simp [hguard, Option.join]

theorem payroll_per_WS_isSome (sumSalary sumWS : Option Rat) :
    (payroll_per_WS sumSalary sumWS).isSome =
      (sqlGtC sumWS 0 && sumSalary.isSome) := by
  unfold payroll_per_WS payroll_per_WS_eval
  split
  · next hguard =>
    rw [hguard]
    rcases sumWS with _ | y
    · simp [sqlGtC] at hguard
    simp only [sqlGtC, decide_eq_true_eq] at hguard
    have h2 : y ≠ 0 := ne_of_gt hguard
    rcases sumSalary with _ | x <;> simp [sqlDivChk, h2, sqlRound]
  · next hguard =>
    simp only [Bool.not_eq_true] at hguard
    simp [hguard, Option.join]

theorem payroll_per_VORP_isSome (sumSalary sumVORP : Option Rat) :
    (payroll_per_VORP sumSalary sumVORP).isSome =
      (sqlGtC sumVORP 0 && sumSalary.isSome) := by
  unfold payroll_per_VORP payroll_per_VORP_eval
  split
  · next hguard =>
    rw [hguard]
    rcases sumVORP with _ | y
    · simp [sqlGtC] at hguard
    simp only [sqlGtC, decide_eq_true_eq] at hguard
    have h2 : y ≠ 0 := ne_of_gt hguard
    rcases sumSalary with _ | x <;> simp [sqlDivChk, h2, sqlRound]
  · next hguard =>
    simp only [Bool.not_eq_true] at hguard
    simp [hguard, Option.join]

/-! ## Claims about the ratio fields -/

/-- Stats row for the counterexample database: a player who passed the
games filter but scored 0 points per game. -/
def rowA : StatsRow :=
  { player_name := "A"
    season := "2023-24"
    team := "BOS"
    position := some "C"
    games_played := some 30
    pg_points := some 0
    adv_win_shares := some 1
    adv_value_over_replacement := some 1 }

/-- Salary row for the counterexample database: the same player with a
positive salary. -/
def salA : SalaryRow :=
  { player_name := "A"
    season := "2023-24"
    salary := some 10000000
    salary_rank := some 5 }

/-- Counterexample database: one stats row, one matching salary row. -/
def dbC2 : Database := { stats := [rowA], salaries := [salA] }

example : (create_main_dashboard_data dbC2).map
    (fun r => (r.points_per_million, r.salary)) =
    [(none, some 10000000)] := by decide

/-- C2 (counterexample): in `dbC2` the main-dashboard output row has a
positive salary — a positive denominator for `points_per_million` — yet
`points_per_million` is NULL, because the guard also requires the
numerator `pg_points` to be positive and this player scored 0.  So "a
ratio with a positive denominator is never null" fails. -/
theorem C2_counterexample :
    (create_main_dashboard_data dbC2).map
        (fun r => (r.points_per_million, r.salary)) =
      [(none, some 10000000)] ∧ (0 : Rat) < 10000000 := by
  constructor
  · decide
  · norm_num

/-- C2 (amended): a derived ratio field is null whenever its denominator
source is null, zero or negative, but not only then: each player-level
ratio (`points_per_million`, `salary_per_win_share` = `salary_per_WS`,
`salary_per_vorp` = `salary_per_VORP`, `value_score`) is non-null exactly
when both the numerator and the denominator source are non-null and
positive, and each team-level payroll ratio is non-null exactly when its
denominator sum is positive and its payroll sum is non-null; hence a
ratio with a positive denominator can still be null. -/
theorem C2_ratio_nullness_characterization :
    (∀ p s, (points_per_million p s).isSome = (sqlGtC p 0 && sqlGtC s 0)) ∧
    (∀ sal ws, (salary_per_win_share sal ws).isSome =
      (sqlGtC ws 0 && sqlGtC sal 0)) ∧
    (∀ sal v, (salary_per_vorp sal v).isSome =
      (sqlGtC v 0 && sqlGtC sal 0)) ∧
    (∀ v sal, (value_score v sal).isSome = (sqlGtC v 0 && sqlGtC sal 0)) ∧
    (∀ ss sw, (payroll_per_WS ss sw).isSome = (sqlGtC sw 0 && ss.isSome)) ∧
    (∀ ss sv, (payroll_per_VORP ss sv).isSome =
      (sqlGtC sv 0 && ss.isSome)) :=
  ⟨points_per_million_isSome, salary_per_win_share_isSome,
    salary_per_vorp_isSome, value_score_isSome, payroll_per_WS_isSome,
    payroll_per_VORP_isSome⟩

/-- When the `salary_change_pct` division is attempted: its instrumented
evaluation hits a zero divisor exactly when the previous salary record
stores the value 0 (so `IFNULL` passes 0 through as divisor) and the
current salary is non-NULL (so the dividend forces the division). -/
theorem salary_change_pct_eval_isSome (c p : Option Rat) :
    (salary_change_pct_eval c p).isSome =
      !(decide (p = some 0) && c.isSome) := by
  rcases p with _ | q <;> rcases c with _ | x <;>
    simp only [salary_change_pct_eval, sqlSub, Option.getD, sqlDivChk,
      sqlRound, sqlMul, Option.map, Option.isSome, decide_eq_true_eq]
  · simp
  · have h1 : (1 : Rat) ≠ 0 := one_ne_zero
    simp [h1]
  · simp
  · by_cases hq : q = 0 <;> simp [hq]

/-- Current-season stats row for the C3 counterexample database. -/
def rowD : StatsRow :=
  { player_name := "D"
    season := "2023-24"
    team := "MIA"
    position := none
    games_played := some 30
    pg_points := none
    adv_win_shares := none
    adv_value_over_replacement := none }

/-- Previous-season stats row of the same player. -/
def rowDprev : StatsRow :=
  { player_name := "D"
    season := "2022-23"
    team := "MIA"
    position := none
    games_played := some 10
    pg_points := none
    adv_win_shares := none
    adv_value_over_replacement := none }

/-- Current-season salary record of the player. -/
def salDcurr : SalaryRow :=
  { player_name := "D"
    season := "2023-24"
    salary := some 5000000
    salary_rank := some 100 }

/-- Previous-season salary record storing the value 0 (not NULL). -/
def salDprev : SalaryRow :=
  { player_name := "D"
    season := "2022-23"
    salary := some 0
    salary_rank := none }

/-- C3 counterexample database: a player whose previous-season salary
record stores 0, feeding the unguarded `salary_change_pct` divisor. -/
def dbC3 : Database :=
  { stats := [rowD, rowDprev], salaries := [salDcurr, salDprev] }

/-- C3 (counterexample): the player-comparison derivation on `dbC3`
reaches the `salary_change_pct` expression with current salary 5000000
and previous salary 0, and its instrumented evaluation at exactly those
operands hits a zero divisor (`IFNULL(prev_sal.salary, 1)` coalesces
only NULL, so the stored 0 passes through) — so a derivation does
perform a division by zero for some contents of the source tables,
refuting the claim; MySQL silently turns it into a NULL column. -/
theorem C3_counterexample :
    (create_player_comparison_data dbC3).map
        (fun row => (row.current_salary, row.previous_salary,
          row.salary_change_pct)) = [(some 5000000, some 0, none)] ∧
      salary_change_pct_eval (some 5000000) (some 0) = none := by
  refine ⟨by decide, by decide⟩

/-- C3 (amended): each of the six CASE-guarded ratio fields divides only
under a guard making its denominator strictly positive, so their
evaluation never attempts a division by zero for any contents of the two
source tables; but the `salary_change_pct` column of the
player-comparison derivation is unguarded — its evaluation attempts a
division by zero exactly when the previous salary record stores the
value 0 while the current salary is non-NULL. -/
theorem C3_guarded_ratios_safe_pct_unguarded :
    (∀ p s, (points_per_million_eval p s).isSome = true) ∧
    (∀ sal ws, (salary_per_win_share_eval sal ws).isSome = true) ∧
    (∀ sal v, (salary_per_vorp_eval sal v).isSome = true) ∧
    (∀ v sal, (value_score_eval v sal).isSome = true) ∧
    (∀ ss sw, (payroll_per_WS_eval ss sw).isSome = true) ∧
    (∀ ss sv, (payroll_per_VORP_eval ss sv).isSome = true) ∧
    (∀ c p, (salary_change_pct_eval c p).isSome =
      !(decide (p = some 0) && c.isSome)) :=
  ⟨points_per_million_eval_isSome, salary_per_win_share_eval_isSome,
    salary_per_vorp_eval_isSome, value_score_eval_isSome,
    payroll_per_WS_eval_isSome, payroll_per_VORP_eval_isSome,
    salary_change_pct_eval_isSome⟩

/-! ## Claims about the bucketed categorical fields -/

theorem salary_tier_mem (r : Option Rat) :
    salary_tier r ∈ ["Top 10 (Supermax)", "Top 30 (Max)", "Top 50",
      "Top 100", "Top 200", "Other"] := by
  unfold salary_tier
  repeat' split
  all_goals decide

theorem scoring_tier_mem (p : Option Rat) :
    scoring_tier p ∈ ["Elite Scorer (25+ PPG)", "All-Star (20-25 PPG)",
      "Starter (15-20 PPG)", "Role Player (10-15 PPG)",
      "Bench Player (<10 PPG)"] := by
  unfold scoring_tier
  repeat' split
  all_goals decide

theorem impact_tier_mem (v : Option Rat) :
    impact_tier v ∈ ["Superstar (6+ VORP)", "Star (4-6 VORP)",
      "Above Average (2-4 VORP)", "Average (0-2 VORP)",
      "Below Average (<0 VORP)"] := by
  unfold impact_tier
  repeat' split
  all_goals decide

theorem value_category_mem (r v : Option Rat) :
    value_category r v ∈ ["Star - Excellent Value", "Star - Fair Value",
      "Star - Overpaid", "Hidden Gem", "Good Value", "Fair Value",
      "Below Average"] := by
  unfold value_category
  repeat' split
  all_goals decide

theorem performance_trend_mem (c p : Option Rat) :
    performance_trend c p ∈ ["Significantly Improved", "Improved",
      "Significantly Declined", "Declined", "Stable"] := by
  unfold performance_trend
  repeat' split
  all_goals decide

theorem impact_trend_mem (c p : Option Rat) :
    impact_trend c p ∈ ["Breakout", "Improving", "Regression",
      "Declining", "Consistent"] := by
  unfold impact_trend
  repeat' split
  all_goals decide

/-- C6: each bucketed categorical field always takes exactly one value
from its fixed bucket list (the CASE chain is total, with first match
winning in the encoded high-to-low order); inputs satisfying several
thresholds take the highest bucket, and in particular a row with
value-over-replacement 6.0 and salary rank 5 is classified
"Star - Excellent Value". -/
theorem C6_buckets_total_first_match_wins :
    (∀ r, salary_tier r ∈ ["Top 10 (Supermax)", "Top 30 (Max)", "Top 50",
      "Top 100", "Top 200", "Other"]) ∧
    (∀ p, scoring_tier p ∈ ["Elite Scorer (25+ PPG)",
      "All-Star (20-25 PPG)", "Starter (15-20 PPG)",
      "Role Player (10-15 PPG)", "Bench Player (<10 PPG)"]) ∧
    (∀ v, impact_tier v ∈ ["Superstar (6+ VORP)", "Star (4-6 VORP)",
      "Above Average (2-4 VORP)", "Average (0-2 VORP)",
      "Below Average (<0 VORP)"]) ∧
    (∀ r v, value_category r v ∈ ["Star - Excellent Value",
      "Star - Fair Value", "Star - Overpaid", "Hidden Gem", "Good Value",
      "Fair Value", "Below Average"]) ∧
    (∀ c p, performance_trend c p ∈ ["Significantly Improved", "Improved",
      "Significantly Declined", "Declined", "Stable"]) ∧
    (∀ c p, impact_trend c p ∈ ["Breakout", "Improving", "Regression",
      "Declining", "Consistent"]) ∧
    value_category (some 5) (some 6) = "Star - Excellent Value" ∧
    salary_tier (some 5) = "Top 10 (Supermax)" ∧
    impact_tier (some 6) = "Superstar (6+ VORP)" ∧
    scoring_tier (some 30) = "Elite Scorer (25+ PPG)" :=
  ⟨salary_tier_mem, scoring_tier_mem, impact_tier_mem, value_category_mem,
    performance_trend_mem, impact_trend_mem, by decide, by decide,
    by decide, by decide⟩

/-- C9: with a NULL previous-season salary and a non-null current salary
`c`, `salary_change` coalesces the missing value to 0 (giving
`c - 0 = c`) while `salary_change_pct` coalesces it to 1 (giving
`ROUND((c - 1) / 1 * 100, 1)`): the two change fields use different
defaults for the same missing source value. -/
theorem C9_salary_change_defaults_differ :
    ∀ c : Rat,
      salary_change (some c) none = some (c - 0) ∧
      salary_change_pct (some c) none =
        some (mysqlRound 1 ((c - 1) / 1 * 100)) := by
  intro c
  constructor
  · simp [salary_change, sqlSub]
  · simp [salary_change_pct, sqlRound, sqlMul, sqlDiv, sqlSub,
      one_ne_zero]

/-- C10: a NULL salary rank fails every rank threshold of the CASE chain
and falls through to the ELSE bucket "Other", the same bucket every rank
above 200 falls into. -/
theorem C10_null_rank_is_Other :
    salary_tier none = "Other" ∧
      ∀ q : Rat, 200 < q → salary_tier (some q) = "Other" := by
  constructor
  · rfl
  · intro q hq
    have h10 : ¬(q ≤ 10) := by linarith
    have h30 : ¬(q ≤ 30) := by linarith
    have h50 : ¬(q ≤ 50) := by linarith
    have h100 : ¬(q ≤ 100) := by linarith
    have h200 : ¬(q ≤ 200) := by linarith
    simp [salary_tier, sqlLeC, h10, h30, h50, h100, h200]

/-- C10 (witness): the NULL rank case together with the theorem applied
at the concrete rank 250. -/
theorem C10_null_rank_is_Other_witness :
    salary_tier none = "Other" ∧ salary_tier (some 250) = "Other" :=
  ⟨C10_null_rank_is_Other.1, C10_null_rank_is_Other.2 250 (by norm_num)⟩

/-! ## Join lemmas -/

/-- A LEFT JOIN contributes at least one joined row per left row. -/
theorem leftJoinSalary_ne_nil (sals : List SalaryRow) (r : StatsRow) :
    leftJoinSalary sals r ≠ [] := by
  unfold leftJoinSalary
  split
  · simp
  · next h =>
    simp only [ne_eq, List.map_eq_nil_iff]
    intro hc
    simp [hc] at h

/-- The previous-season LEFT JOIN contributes at least one joined row
per current row. -/
theorem leftJoinPrev_ne_nil (stats : List StatsRow) (c : StatsRow) :
    leftJoinPrev stats c ≠ [] := by
  unfold leftJoinPrev
  split
  · simp
  · next h =>
    simp only [ne_eq, List.map_eq_nil_iff]
    intro hc
    simp [hc] at h

/-- The previous-salary LEFT JOIN contributes at least one joined row. -/
theorem leftJoinPrevSal_ne_nil (sals : List SalaryRow)
    (op : Option StatsRow) : leftJoinPrevSal sals op ≠ [] := by
  cases op with
  | none => simp [leftJoinPrevSal]
  | some p => exact leftJoinSalary_ne_nil sals p

/-- The salary-match list depends on a stats row only through its join
key (player_name, season). -/
theorem salaryMatches_key_congr (sals : List SalaryRow) (r r' : StatsRow)
    (h1 : r'.player_name = r.player_name) (h2 : r'.season = r.season) :
    salaryMatches sals r' = salaryMatches sals r := by
  unfold salaryMatches
  exact List.filter_congr (fun s _ => by simp [h1, h2])

/-- A stats row with no salary match joins exactly to the NULL salary
side. -/
theorem leftJoinSalary_of_noMatch (sals : List SalaryRow) (r : StatsRow)
    (h : salaryMatches sals r = []) : leftJoinSalary sals r = [none] := by
  simp [leftJoinSalary, h]

/-- A current row whose season is neither of the two hard-coded current
seasons has no previous-season match. -/
theorem prevMatches_eq_nil (stats : List StatsRow) (c : StatsRow)
    (h1 : c.season ≠ "2023-24") (h2 : c.season ≠ "2024-25") :
    prevMatches stats c = [] := by
  unfold prevMatches
  rw [List.filter_eq_nil_iff]
  intro p _
  simp [seasonPair, h1, h2]

/-- Membership in a joined row set for a stats row without salary
match. -/
theorem mem_joinedRows_of_noMatch (db : Database) (r : StatsRow)
    (keep : StatsRow → Bool) (hr : r ∈ db.stats) (hk : keep r = true)
    (hnone : salaryMatches db.salaries r = []) :
    (r, (none : Option SalaryRow)) ∈ joinedRows db keep := by
  unfold joinedRows
  rw [List.mem_flatMap]
  exact ⟨r, List.mem_filter.mpr ⟨hr, hk⟩,
    by simp [leftJoinSalary_of_noMatch db.salaries r hnone]⟩

/-! ## Claims about the player-comparison join -/

/-- C8: the previous-season join condition holds exactly for the two
hard-coded adjacent-season pairs (2023-24 with 2022-23, and 2024-25 with
2023-24), and for any output row whose current season is neither
hard-coded current season every previous-season column is NULL. -/
theorem C8_hardcoded_season_pairs :
    (∀ cs ps, seasonPair cs ps = true ↔
      (cs = "2023-24" ∧ ps = "2022-23") ∨
      (cs = "2024-25" ∧ ps = "2023-24")) ∧
    (∀ (db : Database) (row : ComparisonRow),
      row ∈ create_player_comparison_data db →
      row.current_season ≠ "2023-24" → row.current_season ≠ "2024-25" →
      row.previous_season = none ∧ row.previous_team = none ∧
        row.previous_salary = none ∧ row.previous_salary_rank = none ∧
        row.previous_ppg = none ∧ row.previous_VORP = none) := by
  constructor
  · intro cs ps
    simp [seasonPair]
  · intro db row hmem h1 h2
    simp only [create_player_comparison_data, List.mem_flatMap,
      List.mem_map, List.mem_filter] at hmem
    obtain ⟨c, ⟨hc_mem, hc_g⟩, csal, hcsal, prev, hprev, psal, hpsal,
      hrow⟩ := hmem
    have hcs1 : c.season ≠ "2023-24" := by
      intro h; exact h1 (by rw [← hrow]; exact h)
    have hcs2 : c.season ≠ "2024-25" := by
      intro h; exact h2 (by rw [← hrow]; exact h)
    have hpm : prevMatches db.stats c = [] :=
      prevMatches_eq_nil db.stats c hcs1 hcs2
    have hprev_none : prev = none := by
      rw [leftJoinPrev, hpm] at hprev
      simpa using hprev
    have hpsal_none : psal = none := by
      rw [hprev_none] at hpsal
      simpa [leftJoinPrevSal] using hpsal
    rw [← hrow, hprev_none, hpsal_none]
    simp [mkComparisonRow]

/-- Stats row whose season is not one of the two hard-coded current
seasons of the player-comparison self-join. -/
def rowB : StatsRow :=
  { player_name := "B"
    season := "2021-22"
    team := "LAL"
    position := none
    games_played := some 30
    pg_points := none
    adv_win_shares := none
    adv_value_over_replacement := none }

/-- Database for the C8 witness: one stats row in a season with no
hard-coded predecessor, no salary rows. -/
def dbC8 : Database := { stats := [rowB], salaries := [] }

/-- C8 (witness): the season-pairing theorem applied to the concrete run
on `dbC8`, whose single output row has every previous-season column
NULL. -/
theorem C8_hardcoded_season_pairs_witness :
    (mkComparisonRow rowB none none none).previous_season = none ∧
      (mkComparisonRow rowB none none none).previous_team = none ∧
      (mkComparisonRow rowB none none none).previous_salary = none ∧
      (mkComparisonRow rowB none none none).previous_salary_rank = none ∧
      (mkComparisonRow rowB none none none).previous_ppg = none ∧
      (mkComparisonRow rowB none none none).previous_VORP = none :=
  C8_hardcoded_season_pairs.2 dbC8 (mkComparisonRow rowB none none none)
    (by decide) (by decide) (by decide)

/-! ## Claim about null-salary joins across the five derivations -/

/-- C7: a player-season passing a derivation's games-played filter whose
(player, season) key matches no salary record is still output — with
NULL salary columns — by the main-dashboard and player-comparison
queries, still contributes its group row to the team-summary and
position-analysis queries, and is dropped only by the value-analysis
query, whose WHERE clause alone filters on salary presence. -/
theorem C7_null_salary_not_dropped (db : Database) (r : StatsRow)
    (hr : r ∈ db.stats) (hnone : salaryMatches db.salaries r = []) :
    (sqlGeC r.games_played 10 = true →
      mkMainRow r none ∈ create_main_dashboard_data db ∧
        (mkMainRow r none).salary = none ∧
        (mkMainRow r none).salary_rank = none) ∧
    (sqlGeC r.games_played 10 = true →
      ∃ row, row ∈ create_team_summary_data db ∧
        row.season = r.season ∧ row.team = r.team) ∧
    (sqlGeC r.games_played 20 = true →
      ∃ row, row ∈ create_player_comparison_data db ∧
        row.player_name = r.player_name ∧ row.current_season = r.season ∧
        row.current_salary = none ∧ row.current_salary_rank = none) ∧
    (sqlGeC r.games_played 40 = true → r.position.isSome = true →
      ∃ row, row ∈ create_position_analysis_data db ∧
        row.position = r.position ∧ row.season = r.season) ∧
    (∀ row, row ∈ create_value_analysis_data db →
      row.player_name = r.player_name → row.season ≠ r.season) := by
  refine ⟨?_, ?_, ?_, ?_, ?_⟩
  · intro hg
    refine ⟨?_, by simp [mkMainRow], by simp [mkMainRow]⟩
    unfold create_main_dashboard_data
    rw [List.mem_map]
    exact ⟨(r, none), mem_joinedRows_of_noMatch db r _ hr hg hnone, rfl⟩
  · intro hg
    have hj := mem_joinedRows_of_noMatch db r
      (fun s => sqlGeC s.games_played 10) hr hg hnone
    have hkey : (r.season, r.team) ∈ teamGroups db := by
      unfold teamGroups
      rw [List.mem_dedup, List.mem_map]
      exact ⟨(r, none), hj, rfl⟩
    refine ⟨mkTeamRow (r.season, r.team)
      ((joinedRows db (fun s => sqlGeC s.games_played 10)).filter
        (fun p => decide ((p.1.season, p.1.team) = (r.season, r.team)))),
      ?_, rfl, rfl⟩
    unfold create_team_summary_data
    rw [List.mem_map]
    exact ⟨(r.season, r.team), hkey, rfl⟩
  · intro hg
    obtain ⟨prev, hprev⟩ :=
      List.exists_mem_of_ne_nil _ (leftJoinPrev_ne_nil db.stats r)
    obtain ⟨psal, hpsal⟩ :=
      List.exists_mem_of_ne_nil _ (leftJoinPrevSal_ne_nil db.salaries prev)
    refine ⟨mkComparisonRow r none prev psal, ?_, rfl, rfl,
      by simp [mkComparisonRow], by simp [mkComparisonRow]⟩
    simp only [create_player_comparison_data, List.mem_flatMap,
      List.mem_map, List.mem_filter]
    exact ⟨r, ⟨hr, hg⟩, none,
      by simp [leftJoinSalary_of_noMatch db.salaries r hnone],
      prev, hprev, psal, hpsal, rfl⟩
  · intro hg hpos
    have hj := mem_joinedRows_of_noMatch db r
      (fun s => sqlGeC s.games_played 40 && s.position.isSome) hr
      (by simp [hg, hpos]) hnone
    have hkey : (r.position, r.season) ∈ positionGroups db := by
      unfold positionGroups
      rw [List.mem_dedup, List.mem_map]
      exact ⟨(r, none), hj, rfl⟩
    refine ⟨mkPositionRow (r.position, r.season)
      ((joinedRows db
          (fun s => sqlGeC s.games_played 40 && s.position.isSome)).filter
        (fun p => decide ((p.1.position, p.1.season) =
          (r.position, r.season)))),
      ?_, rfl, rfl⟩
    unfold create_position_analysis_data
    rw [List.mem_map]
    exact ⟨(r.position, r.season), hkey, rfl⟩
  · intro row hmem hn hs
    simp only [create_value_analysis_data, List.mem_map,
      List.mem_filter] at hmem
    obtain ⟨⟨r', os⟩, ⟨hmem', hsome⟩, hrow⟩ := hmem
    simp only [joinedRows, List.mem_flatMap, List.mem_map,
      List.mem_filter] at hmem'
    obtain ⟨r'', ⟨hr''_mem, hr''_g⟩, os', hos', heq⟩ := hmem'
    injection heq with heq1 heq2
    subst heq1
    subst heq2
    have hname : r''.player_name = r.player_name := by
      rw [← hn, ← hrow]; rfl
    have hseason : r''.season = r.season := by
      rw [← hs, ← hrow]; rfl
    have hmatch' : salaryMatches db.salaries r'' = [] := by
      rw [salaryMatches_key_congr db.salaries r r'' hname hseason, hnone]
    rw [leftJoinSalary_of_noMatch db.salaries r'' hmatch'] at hos'
    have hos_none : os' = none := by simpa using hos'
    rw [hos_none] at hsome
    simp at hsome

/-- Stats row for the C7 witness: passes every games filter, has a
position, and has no matching salary record. -/
def rowC : StatsRow :=
  { player_name := "C"
    season := "2023-24"
    team := "NYK"
    position := some "F"
    games_played := some 50
    pg_points := some 10
    adv_win_shares := none
    adv_value_over_replacement := none }

/-- Database for the C7 witness: one stats row and an empty salary
table. -/
def dbC7 : Database := { stats := [rowC], salaries := [] }

/-- C7 (witness): the null-salary-join theorem applied to the concrete
database `dbC7`, with every games-played guard discharged. -/
theorem C7_null_salary_not_dropped_witness :
    (mkMainRow rowC none ∈ create_main_dashboard_data dbC7 ∧
      (mkMainRow rowC none).salary = none ∧
      (mkMainRow rowC none).salary_rank = none) ∧
    (∃ row, row ∈ create_team_summary_data dbC7 ∧
      row.season = rowC.season ∧ row.team = rowC.team) ∧
    (∃ row, row ∈ create_player_comparison_data dbC7 ∧
      row.player_name = rowC.player_name ∧
      row.current_season = rowC.season ∧
      row.current_salary = none ∧ row.current_salary_rank = none) ∧
    (∃ row, row ∈ create_position_analysis_data dbC7 ∧
      row.position = rowC.position ∧ row.season = rowC.season) ∧
    (∀ row, row ∈ create_value_analysis_data dbC7 →
      row.player_name = rowC.player_name → row.season ≠ rowC.season) :=
  ⟨(C7_null_salary_not_dropped dbC7 rowC (by decide) rfl).1 (by decide),
    (C7_null_salary_not_dropped dbC7 rowC (by decide) rfl).2.1 (by decide),
    (C7_null_salary_not_dropped dbC7 rowC (by decide) rfl).2.2.1
      (by decide),
    (C7_null_salary_not_dropped dbC7 rowC (by decide) rfl).2.2.2.1
      (by decide) (by decide),
    (C7_null_salary_not_dropped dbC7 rowC (by decide) rfl).2.2.2.2⟩
